import Mathlib

/-!
Shallow embedding of the PriceTrak scraper and refresh engine
(`scraper.py`, `app.py`) and verification of its specification claims.

Modelling conventions:
* Python `float` prices are modelled as `ℚ` (all price arithmetic in the
  source is exact decimal parsing and comparison).
* Python `None` is modelled with `Option`.
* Regular expressions used by the source are alternation-free and are
  expanded into explicit scanning functions over `List Char`.
* `\d`, `\s`, `lower()` and `strip()` are modelled at ASCII granularity
  (`Char.isDigit`, an explicit ASCII whitespace set, `Char.toLower`).
-/

namespace PriceTrak

/-! ## Generic string helpers -/

/-- `leadsWith needle hay`: `needle` is an initial segment of `hay`. -/
def leadsWith : List Char → List Char → Bool
  | [], _ => true
  | _ :: _, [] => false
  | a :: as, b :: bs => (a == b) && leadsWith as bs

/-- Substring test (Python `needle in hay`). -/
def containsSub : List Char → List Char → Bool
  | [], needle => needle.isEmpty
  | h :: t, needle => leadsWith needle (h :: t) || containsSub t needle

/-- Case-insensitive `leadsWith`; `needle` is given already lower-case. -/
def leadsWithCI : List Char → List Char → Bool
  | [], _ => true
  | _ :: _, [] => false
  | a :: as, b :: bs => (a == b.toLower) && leadsWithCI as bs

/-- Python `str.lower()` (ASCII granularity). -/
def lowerStr (s : String) : String := ⟨s.data.map Char.toLower⟩

/-- Python `\s` whitespace class (ASCII subset). -/
def isWsChar (c : Char) : Bool :=
  c == ' ' || c == '\t' || c == '\n' || c == '\r' || c == '\x0b' || c == '\x0c'

/-- Both-ends whitespace trim (Python `str.strip()`). -/
def stripWs (l : List Char) : List Char :=
  ((l.dropWhile isWsChar).reverse.dropWhile isWsChar).reverse

/-- First present element of a list of optionals. -/
def firstSome {α : Type} : List (Option α) → Option α
  | [] => none
  | some a :: _ => some a
  | none :: l => firstSome l

/-! ## Price parser (`scraper._extract_price`) -/

/-- Numeric value of a digit string (most significant first). -/
def digitsVal (l : List Char) : Nat :=
  l.foldl (fun a c => a * 10 + (c.toNat - 48)) 0

/-- Python `float(s)` restricted to the strings `_extract_price` can build:
digits and at most one dot, with at least one digit. Returns `none` exactly
when `float` would raise `ValueError`. -/
def parseDecimal (l : List Char) : Option ℚ :=
  if (l.all fun c => c.isDigit || c == '.') ∧ (l.any Char.isDigit) ∧ l.count '.' ≤ 1 then
    let ip := l.takeWhile (fun c => !(c == '.'))
    let fp := (l.dropWhile (fun c => !(c == '.'))).drop 1
    let den : Nat := Nat.pow 10 fp.length
    some (mkRat (digitsVal ip * den + digitsVal fp : Nat) den)
  else none

/-- First match of the fallback pattern `(\d+(?:\.\d+)?)`: first maximal
digit run, extended by a dot and a second digit run when present. -/
def firstNumToken : List Char → Option (List Char)
  | [] => none
  | c :: t =>
    if c.isDigit then
      let d1 := (c :: t).takeWhile Char.isDigit
      let r1 := (c :: t).dropWhile Char.isDigit
      match r1 with
      | '.' :: r2 =>
        match r2 with
        | d :: _ =>
          if d.isDigit then some (d1 ++ '.' :: r2.takeWhile Char.isDigit) else some d1
        | [] => some d1
      | _ => some d1
    else firstNumToken t

/-- `scraper._extract_price`: strip to `[^\d.,]`, apply the separator
heuristic, parse, with a regex fallback; total, returns `0` on failure. -/
def extract_price (text : Option String) : ℚ :=
  match text with
  | none => 0
  | some t =>
    if t.data.isEmpty then 0
    else
      let cleaned := t.data.filter fun c => c.isDigit || c == '.' || c == ','
      if cleaned.isEmpty then 0
      else
        let c2 :=
          if cleaned.count '.' = 1 then cleaned.filter fun c => !(c == ',')
          else if cleaned.count '.' = 0 ∧ cleaned.count ',' = 1 then
            cleaned.map fun c => if c == ',' then '.' else c
          else cleaned.filter fun c => !(c == ',')
        match parseDecimal c2 with
        | some v => v
        | none =>
          match firstNumToken c2 with
          | some tok => (parseDecimal tok).getD 0
          | none => 0

/-! ## Platform identifier (`scraper.identify_platform`) -/

/-- The regex `https?://(www\.)?(smile\.)?amazon\.com` is alternation-free,
so `re.search` succeeds iff one of its eight literal expansions occurs as a
substring. -/
def amazonHostPats : List String :=
  ["http://amazon.com", "http://www.amazon.com",
   "http://smile.amazon.com", "http://www.smile.amazon.com",
   "https://amazon.com", "https://www.amazon.com",
   "https://smile.amazon.com", "https://www.smile.amazon.com"]

/-- `re.search(r"https?://(www\.)?(smile\.)?amazon\.com", u)` as a Bool. -/
def amazon_url_match (u : String) : Bool :=
  amazonHostPats.any fun pat => containsSub u.data pat.data

/-- `scraper.identify_platform`. -/
def identify_platform (url : Option String) : Option String :=
  let u := lowerStr (url.getD "")
  if containsSub u.data "lazada".data then some "lazada"
  else if amazon_url_match u then some "amazon"
  else none

/-- `scraper.is_amazon_url`. -/
def is_amazon_url (url : Option String) : Bool :=
  amazon_url_match (lowerStr (url.getD ""))

/-! ## Product-id parsers -/

/-- Match of `-i(\d+)\.html` at the head of the list; returns the captured
digit group. -/
def matchLazadaAt : List Char → Option (List Char)
  | '-' :: 'i' :: rest =>
    let ds := rest.takeWhile Char.isDigit
    let rest2 := rest.dropWhile Char.isDigit
    if ds.isEmpty then none
    else if leadsWith ".html".data rest2 then some ds else none
  | _ => none

/-- `re.search(r"-i(\d+)\.html", url)`: leftmost match. -/
def lazadaIdSearch : List Char → Option (List Char)
  | [] => none
  | c :: t =>
    match matchLazadaAt (c :: t) with
    | some ds => some ds
    | none => lazadaIdSearch t

/-- `scraper._parse_lazada_product_id`: captured digits, else the raw URL. -/
def parse_lazada_product_id (url : String) : String :=
  match lazadaIdSearch url.data with
  | some ds => ⟨ds⟩
  | none => url

/-- The ASIN character class `[A-Z0-9]`. -/
def asinChar (c : Char) : Bool := ('A' ≤ c && c ≤ 'Z') || c.isDigit

/-- Take exactly ten ASIN-class characters. -/
def take10Asin (l : List Char) : Option (List Char) :=
  let t := l.take 10
  if t.length = 10 ∧ t.all asinChar then some t else none

/-- Head match for a literal followed by `([A-Z0-9]{10})`. -/
def matchLitThen10 (lit : List Char) (s : List Char) : Option (List Char) :=
  if leadsWith lit s then take10Asin (s.drop lit.length) else none

/-- Head match for `/([A-Z0-9]{10})(?:[/?]|$)`. -/
def matchAsinSlashAt : List Char → Option (List Char)
  | '/' :: rest =>
    match take10Asin rest with
    | some t =>
      match rest.drop 10 with
      | [] => some t
      | c :: _ => if c == '/' || c == '?' then some t else none
    | none => none
  | _ => none

/-- Leftmost match of a head matcher (`re.search`). -/
def searchFrom (matchAt : List Char → Option (List Char)) : List Char → Option (List Char)
  | [] => matchAt []
  | c :: t =>
    match matchAt (c :: t) with
    | some r => some r
    | none => searchFrom matchAt t

/-- `scraper._parse_amazon_asin`: the four ASIN URL patterns in order. -/
def parse_amazon_asin (url : String) : Option String :=
  if url.data.isEmpty then none
  else
    match searchFrom (matchLitThen10 "/dp/".data) url.data with
    | some t => some ⟨t⟩
    | none =>
      match searchFrom (matchLitThen10 "/product/".data) url.data with
      | some t => some ⟨t⟩
      | none =>
        match searchFrom (matchLitThen10 "ASIN=".data) url.data with
        | some t => some ⟨t⟩
        | none => (searchFrom matchAsinSlashAt url.data).map fun t => ⟨t⟩

/-! ## Seller name normalizer (`scraper._clean_seller_name`) -/

/-- Head match of `visit\s+the\s*` (case-insensitive); returns the rest of
the string after the matched region. -/
def matchVisitThe (s : List Char) : Option (List Char) :=
  if leadsWithCI "visit".data s then
    let r1 := s.drop 5
    let ws := r1.takeWhile isWsChar
    if ws.isEmpty then none
    else
      let r2 := r1.dropWhile isWsChar
      if leadsWithCI "the".data r2 then some ((r2.drop 3).dropWhile isWsChar)
      else none
  else none

/-- `re.sub(r"visit\s+the\s*", "", name, flags=re.I)`: scan left to right,
removing every match. Fuel is the string length; every step consumes at
least one character, so the fuel never runs out. -/
def cleanLoop : Nat → List Char → List Char
  | _, [] => []
  | 0, l => l
  | fuel + 1, c :: t =>
    match matchVisitThe (c :: t) with
    | some rest => cleanLoop fuel rest
    | none => c :: cleanLoop fuel t

/-- `scraper._clean_seller_name`. -/
def clean_seller_name (name : Option String) : String :=
  match name with
  | none => ""
  | some s => if s.data.isEmpty then "" else ⟨stripWs (cleanLoop s.data.length s.data)⟩

/-! ## Product snapshot and `Product.set_price` -/

/-- The result record of one extraction (`vars(product)` in the source). -/
structure Snapshot where
  platform : String
  platform_product_id : String
  name : String
  seller : String
  price : ℚ
  url : String
deriving DecidableEq

/-- `Product.set_price`: assign only when the incoming value is truthy and
the current price is exactly `0.0`. The `Option` argument covers the call
sites that pass a possibly-`None` float. -/
def set_price (cur : ℚ) (p : Option ℚ) : ℚ :=
  match p with
  | none => cur
  | some v => if v ≠ 0 ∧ cur = 0 then v else cur

/-! ## Lazada extractor (`scraper._scrape_lazada`)

A fetched page is abstracted as the extraction-relevant observations the
BeautifulSoup queries of the source would produce:
* per CSS selector, the stripped text of the first matching element
  (`none` when the selector matches nothing);
* per `application/(ld+json|json)` script, its parse outcome;
* per script containing `pdpTrackingData`, the regex/JSON parse outcome.
-/

/-- One JSON(-LD) script: `valid` iff `json.loads` succeeded and the value
is a dict; `name` is `data.get("name", "")`; `offersIsDict` iff
`data.get("offers")` is a dict; `offersPriceStr` is the already-applied
`str(offers.get("price"))` (so `"None"` when the key is missing). -/
structure LdScript where
  valid : Bool
  name : String
  offersIsDict : Bool
  offersPriceStr : String
deriving DecidableEq

/-- One script containing `pdpTrackingData` whose regex and JSON parse
succeeded. `priceVal` is `data.get("pdt_price") or data.get("price") or
data.get("product_price")` (`none` when all are falsy); `brandVal` is
`str(data.get("brand_name") or data.get("brand") or "")`. -/
structure TrackScript where
  priceVal : Option String
  brandVal : String
deriving DecidableEq

structure LazadaPage where
  /-- Result of `_scrape_lazada_ui_price(url)` (network/Playwright effect). -/
  uiPrice : Option ℚ
  /-- Text of `span.pdp-v2-product-price-content-salePrice-amount`. -/
  saleText : Option String
  /-- Text of `span.pdp-v2-product-price-content-originalPrice-amount`. -/
  origText : Option String
  ldScripts : List LdScript
  /-- Scripts containing `pdpTrackingData`; `none` entries are those whose
  regex or JSON parse failed (`continue` in the source). -/
  trackScripts : List (Option TrackScript)
deriving DecidableEq

/-- Body of the Lazada JSON-LD loop: accumulate (name, price). -/
def lazLdStep (acc : String × ℚ) (sc : LdScript) : String × ℚ :=
  if sc.valid then
    (if acc.1 = "" then sc.name else acc.1,
     if acc.2 = 0 ∧ sc.offersIsDict then
       set_price acc.2 (some (extract_price (some sc.offersPriceStr)))
     else acc.2)
  else acc

/-- `scraper._scrape_lazada`. -/
def scrape_lazada (url : String) (pg : LazadaPage) : Snapshot :=
  -- 1) UI price (highest priority)
  let p1 := set_price 0 pg.uiPrice
  -- 2) DOM price fallback: first present selector, then break
  let p2 :=
    if p1 = 0 then
      (firstSome [pg.saleText, pg.origText]).elim p1
        (fun t => set_price p1 (some (extract_price (some t))))
    else p1
  -- 3) JSON-LD scripts
  let r3 := pg.ldScripts.foldl lazLdStep ("", p2)
  -- 4) first successfully parsed pdpTrackingData script, then break;
  -- the seller is still "" at this point, so `seller or clean(...)` is
  -- the cleaned brand value
  let p4 :=
    (firstSome pg.trackScripts).elim r3.2
      (fun ts => set_price r3.2 (some (extract_price ts.priceVal)))
  let s4 :=
    (firstSome pg.trackScripts).elim ""
      (fun ts => clean_seller_name (some ts.brandVal))
  { platform := "lazada", platform_product_id := parse_lazada_product_id url,
    name := r3.1, seller := s4, price := p4, url := url }

/-! ## Amazon extractor (`scraper._scrape_amazon`) -/

/-- One JSON(-LD) script seen by the Amazon extractor. `sellerIsDict` iff
`offers.get("seller")` is a dict; `sellerName` is `seller.get("name", "")`. -/
structure AmzLd where
  valid : Bool
  name : String
  offersIsDict : Bool
  offersPriceStr : String
  sellerIsDict : Bool
  sellerName : String
deriving DecidableEq

structure AmazonPage where
  /-- Text of `#productTitle`. -/
  titleText : Option String
  ldScripts : List AmzLd
  /-- Texts of the five price selectors, in the source's tuple order. -/
  priceblockOur : Option String
  priceblockDeal : Option String
  priceblockSale : Option String
  tpPriceTotal : Option String
  aPriceOffscreen : Option String
  /-- Text of the `span.a-offscreen` fallback. -/
  offscreenAny : Option String
  /-- Text of `#sellerProfileTriggerId`. -/
  sellerProfileText : Option String
  /-- Text of `#bylineInfo`. -/
  bylineText : Option String
deriving DecidableEq

/-- Body of the Amazon JSON-LD loop: accumulate (name, price, seller).
The seller candidate is assigned raw (`seller.get("name", "")`), without
`_clean_seller_name`. -/
def amzLdStep (acc : String × ℚ × String) (sc : AmzLd) : String × ℚ × String :=
  if sc.valid then
    (if acc.1 = "" then sc.name else acc.1,
     (if acc.2.1 = 0 ∧ sc.offersIsDict then
        set_price acc.2.1 (some (extract_price (some sc.offersPriceStr)))
      else acc.2.1,
      if acc.2.2 = "" ∧ sc.offersIsDict ∧ sc.sellerIsDict then sc.sellerName
      else acc.2.2))
  else acc

/-- `scraper._scrape_amazon`. -/
def scrape_amazon (url : String) (pg : AmazonPage) : Snapshot :=
  let asin := (parse_amazon_asin url).getD ""
  -- Title
  let name0 := pg.titleText.getD ""
  -- Try JSON-LD offers first
  let r1 := pg.ldScripts.foldl amzLdStep (name0, 0, "")
  -- DOM selectors for price: first present selector, then break
  let p2 :=
    if r1.2.1 = 0 then
      (firstSome [pg.priceblockOur, pg.priceblockDeal, pg.priceblockSale,
                  pg.tpPriceTotal, pg.aPriceOffscreen]).elim r1.2.1
        (fun t => set_price r1.2.1 (some (extract_price (some t))))
    else r1.2.1
  -- Fallback: any .a-offscreen price-like span
  let p3 :=
    if p2 = 0 then
      pg.offscreenAny.elim p2
        (fun t => set_price p2 (some (extract_price (some t))))
    else p2
  -- Seller fallback: raw get_text, no _clean_seller_name
  let s2 :=
    if r1.2.2 = "" then
      (firstSome [pg.sellerProfileText, pg.bylineText]).getD r1.2.2
    else r1.2.2
  { platform := "amazon", platform_product_id := asin,
    name := r1.1, seller := s2, price := p3, url := url }

/-! ## Price-source precedence chains -/

/-- First nonzero value of a candidate list, `0` when there is none. -/
def firstNonzero : List ℚ → ℚ
  | [] => 0
  | x :: xs => if x = 0 then firstNonzero xs else x

/-- Lazada source 1: the rendered-UI price. -/
def lazUiVal (pg : LazadaPage) : ℚ := pg.uiPrice.getD 0

/-- Lazada source 2: the first present DOM price selector. -/
def lazDomVal (pg : LazadaPage) : ℚ :=
  (firstSome [pg.saleText, pg.origText]).elim 0 (fun t => extract_price (some t))

/-- Price candidates offered by the JSON-LD scripts (Lazada). -/
def lazLdCands (l : List LdScript) : List ℚ :=
  l.filterMap fun sc =>
    if sc.valid ∧ sc.offersIsDict then some (extract_price (some sc.offersPriceStr))
    else none

/-- Lazada source 3: first nonzero JSON-LD offer price. -/
def lazLdVal (pg : LazadaPage) : ℚ := firstNonzero (lazLdCands pg.ldScripts)

/-- Lazada source 4: the `pdpTrackingData` price. -/
def lazTrackVal (pg : LazadaPage) : ℚ :=
  (firstSome pg.trackScripts).elim 0 (fun ts => extract_price ts.priceVal)

/-- Price candidates offered by the JSON-LD scripts (Amazon). -/
def amzLdCands (l : List AmzLd) : List ℚ :=
  l.filterMap fun sc =>
    if sc.valid ∧ sc.offersIsDict then some (extract_price (some sc.offersPriceStr))
    else none

/-- Amazon source 1: first nonzero JSON-LD offer price. -/
def amzLdVal (pg : AmazonPage) : ℚ := firstNonzero (amzLdCands pg.ldScripts)

/-- Amazon source 2: the first present DOM price selector. -/
def amzDomVal (pg : AmazonPage) : ℚ :=
  (firstSome [pg.priceblockOur, pg.priceblockDeal, pg.priceblockSale,
              pg.tpPriceTotal, pg.aPriceOffscreen]).elim 0 (fun t => extract_price (some t))

/-- Amazon source 3: the `span.a-offscreen` fallback. -/
def amzOffVal (pg : AmazonPage) : ℚ :=
  pg.offscreenAny.elim 0 (fun t => extract_price (some t))

/-! ## Refresh engine (`app.refresh_prices_and_notify`)

The SQLAlchemy store is modelled as in-memory lists in insertion order;
`datetime.now()` is an abstract `now : Nat` tick; the network scrape is an
oracle `scrape : url → platform → Option ℚ` returning the snapshot's price
on success and `none` when `scrape_product` raises. `send_email` calls are
recorded as `EmailEvent`s (the body's exact text formatting is abstracted
into its old/new price and URL fields). -/

structure ProductRec where
  id : Nat
  platform : String
  url : String
  name : String
  currency : String
  last_price : Option ℚ
  last_checked_at : Option Nat
deriving DecidableEq

structure WatchRec where
  user_id : Nat
  product_id : Nat
  notify_price_drop : Bool
  last_notified_price : Option ℚ
deriving DecidableEq

structure UserRec where
  id : Nat
  email : String
deriving DecidableEq

structure SampleRec where
  product_id : Nat
  price : ℚ
  currency : String
deriving DecidableEq

structure EmailEvent where
  to_email : String
  subject : String
  old_price : ℚ
  new_price : ℚ
  url : String
deriving DecidableEq

structure DB where
  users : List UserRec
  products : List ProductRec
  watchlist : List WatchRec
  history : List SampleRec
deriving DecidableEq

def lookupProduct (ps : List ProductRec) (pid : Nat) : Option ProductRec :=
  ps.find? fun p => p.id == pid

def lookupUser (us : List UserRec) (uid : Nat) : Option UserRec :=
  us.find? fun u => u.id == uid

/-- Keep the first occurrence of each value, tracking the values seen. -/
def dedupGo : List Nat → List Nat → List Nat
  | _, [] => []
  | seen, x :: xs =>
    if seen.contains x then dedupGo seen xs else x :: dedupGo (x :: seen) xs

/-- `{w.product_id for w in watchlist}`: distinct ids (Python set iteration
order is unspecified; first occurrence order is used). -/
def dedupNats (l : List Nat) : List Nat := dedupGo [] l

/-- Body of the watcher loop for one `Watchlist` row: possibly send a mail
and update `last_notified_price`. -/
def processWatcher (db : DB) (prod : ProductRec) (oldP newP : ℚ) (w : WatchRec) :
    WatchRec × List EmailEvent :=
  if w.product_id = prod.id then
    match lookupUser db.users w.user_id with
    | none => (w, [])
    | some u =>
      if newP < oldP ∧ w.notify_price_drop then
        ({ w with last_notified_price := some newP },
         [{ to_email := u.email, subject := "Price drop: " ++ prod.name,
            old_price := oldP, new_price := newP, url := prod.url }])
      else (w, [])
  else (w, [])

structure RefreshState where
  db : DB
  emails : List EmailEvent
  scraped : Nat
deriving DecidableEq

/-- One iteration of the per-product loop. -/
def stepRefresh (scrape : String → String → Option ℚ) (now : Nat)
    (s : RefreshState) (pid : Nat) : RefreshState :=
  match lookupProduct s.db.products pid with
  | none => s
  | some prod =>
    match scrape prod.url prod.platform with
    | none => s  -- exception caught and logged: continue
    | some dataPrice =>
      let oldP := prod.last_price.getD 0        -- product.last_price or 0.0
      let newP := if dataPrice = 0 then oldP else dataPrice
                                                -- data.get('price') or old_price
      let products' := s.db.products.map fun p =>
        if p.id = prod.id then
          { p with last_price := some newP, last_checked_at := some now }
        else p
      let hist' := s.db.history ++ [{ product_id := prod.id, price := newP,
                                      currency := prod.currency }]
      let notifyResults :=
        if newP < oldP then some (s.db.watchlist.map (processWatcher s.db prod oldP newP))
        else none
      let watch' := match notifyResults with
        | some rs => rs.map Prod.fst
        | none => s.db.watchlist
      let emailsNew := match notifyResults with
        | some rs => (rs.map Prod.snd).flatten
        | none => []
      { db := { s.db with products := products', watchlist := watch', history := hist' },
        emails := s.emails ++ emailsNew,
        scraped := s.scraped + 1 }

structure RefreshResult where
  db : DB
  emails : List EmailEvent
  scraped : Nat
  total : Nat
deriving DecidableEq

/-- `app.refresh_prices_and_notify`: iterate the distinct watched product
ids; the final log line reports `scraped` of `total` products refreshed. -/
def refresh_prices_and_notify (scrape : String → String → Option ℚ) (now : Nat)
    (db : DB) : RefreshResult :=
  let pids := dedupNats (db.watchlist.map fun w => w.product_id)
  if pids.isEmpty then { db := db, emails := [], scraped := 0, total := 0 }
  else
    let s := pids.foldl (stepRefresh scrape now) { db := db, emails := [], scraped := 0 }
    { db := s.db, emails := s.emails, scraped := s.scraped, total := pids.length }

/-! ## Precedence-resolution helpers and concrete fixtures -/

/-- One precedence stage: a candidate takes effect only while the price is
still zero. -/
def resolvePrice (p cand : ℚ) : ℚ := if p = 0 then cand else p

/-- First truthy (non-`None`, nonzero) value of a call sequence. -/
def firstTruthy : List (Option ℚ) → ℚ
  | [] => 0
  | none :: xs => firstTruthy xs
  | some v :: xs => if v = 0 then firstTruthy xs else v

/-- An Amazon page on which every query comes up empty. -/
def emptyAmazonPage : AmazonPage :=
  { titleText := none, ldScripts := [], priceblockOur := none,
    priceblockDeal := none, priceblockSale := none, tpPriceTotal := none,
    aPriceOffscreen := none, offscreenAny := none,
    sellerProfileText := none, bylineText := none }

/-- A Lazada page on which every query comes up empty. -/
def emptyLazadaPage : LazadaPage :=
  { uiPrice := none, saleText := none, origText := none,
    ldScripts := [], trackScripts := [] }

/-- Amazon page carrying both a nonzero DOM-selector price (`$50`) and a
nonzero JSON-LD offer price (`30`). -/
def bothSourcesPage : AmazonPage :=
  { emptyAmazonPage with
    ldScripts := [{ valid := true, name := "T", offersIsDict := true,
                    offersPriceStr := "30", sellerIsDict := false,
                    sellerName := "" }],
    priceblockOur := some "$50" }

/-- Amazon page whose JSON-LD offer carries a boilerplate seller name. -/
def boilerSellerPage : AmazonPage :=
  { emptyAmazonPage with
    ldScripts := [{ valid := true, name := "T", offersIsDict := true,
                    offersPriceStr := "30", sellerIsDict := true,
                    sellerName := "Visit the Acme Store" }] }

/-- A stored product record used by the refresh fixtures. -/
def prodFix (i : Nat) (u : String) : ProductRec :=
  { id := i, platform := "lazada", url := u, name := "P", currency := "PHP",
    last_price := some 100, last_checked_at := none }

/-- Three watched products; the scrape of `"u2"` fails. -/
def db3 : DB :=
  { users := [],
    products := [prodFix 1 "u1", prodFix 2 "u2", prodFix 3 "u3"],
    watchlist :=
      [{ user_id := 1, product_id := 1, notify_price_drop := true, last_notified_price := none },
       { user_id := 2, product_id := 2, notify_price_drop := true, last_notified_price := none },
       { user_id := 3, product_id := 3, notify_price_drop := true, last_notified_price := none }],
    history := [] }

/-- Oracle for `db3`: product 2's fetch raises, the others return 150. -/
def oracle3 : String → String → Option ℚ :=
  fun u _ => if u = "u2" then none else some 150

/-- One product at 1000 pesos. -/
def prod8 : ProductRec :=
  { id := 1, platform := "amazon", url := "u", name := "X", currency := "PHP",
    last_price := some 1000, last_checked_at := none }

/-- One product, one user, one subscription with `notify_price_drop = true`. -/
def db8 : DB :=
  { users := [{ id := 1, email := "a@b" }],
    products := [prod8],
    watchlist := [{ user_id := 1, product_id := 1, notify_price_drop := true,
                    last_notified_price := none }],
    history := [] }

/-- Same as `db8` but the subscription has `notify_price_drop = false`. -/
def db8f : DB :=
  { db8 with
    watchlist := [{ user_id := 1, product_id := 1, notify_price_drop := false,
                    last_notified_price := none }] }

def oracle900 : String → String → Option ℚ := fun _ _ => some 900

def oracle1000 : String → String → Option ℚ := fun _ _ => some 1000

/-- Refresh state over `db8` before the cycle. -/
def st8 : RefreshState := { db := db8, emails := [], scraped := 0 }

/-- Refresh state over `db3` before the cycle. -/
def st3 : RefreshState := { db := db3, emails := [], scraped := 0 }

/-! ## Helper lemmas -/

lemma set_price_ne (cur : ℚ) (p : Option ℚ) (h : cur ≠ 0) : set_price cur p = cur := by
  cases p with
  | none => rfl
  | some v => simp [set_price, h]

lemma set_price_zero (v : ℚ) : set_price 0 (some v) = v := by
  by_cases h : v = 0 <;> simp [set_price, h]

lemma set_price_getD (p : Option ℚ) : set_price 0 p = p.getD 0 := by
  cases p with
  | none => rfl
  | some v => rw [set_price_zero]; rfl

lemma resolve_chain3 (a b c : ℚ) :
    resolvePrice (resolvePrice a b) c = firstNonzero [a, b, c] := by
  by_cases ha : a = 0 <;> by_cases hb : b = 0 <;> by_cases hc : c = 0 <;>
    simp [resolvePrice, firstNonzero, ha, hb, hc]

lemma resolve_chain4 (a b c d : ℚ) :
    resolvePrice (resolvePrice (resolvePrice a b) c) d = firstNonzero [a, b, c, d] := by
  by_cases ha : a = 0 <;> by_cases hb : b = 0 <;> by_cases hc : c = 0 <;>
    by_cases hd : d = 0 <;> simp [resolvePrice, firstNonzero, ha, hb, hc, hd]

lemma stage_elim (o : Option String) (p : ℚ) :
    (if p = 0 then o.elim p (fun t => set_price p (some (extract_price (some t)))) else p)
      = resolvePrice p (o.elim 0 (fun t => extract_price (some t))) := by
  by_cases hp : p = 0
  · subst hp
    cases o with
    | none => simp [resolvePrice]
    | some t => simp [resolvePrice, set_price_zero]
  · simp [resolvePrice, hp]

lemma stage_track (o : Option TrackScript) (p : ℚ) :
    o.elim p (fun ts => set_price p (some (extract_price ts.priceVal)))
      = resolvePrice p (o.elim 0 (fun ts => extract_price ts.priceVal)) := by
  cases o with
  | none => by_cases hp : p = 0 <;> simp [resolvePrice, hp]
  | some ts =>
    by_cases hp : p = 0
    · subst hp; simp [resolvePrice, set_price_getD]
    · simp only [Option.elim]
      rw [set_price_ne _ _ hp]
      simp [resolvePrice, hp]

lemma lazLd_foldl_ne (l : List LdScript) (acc : String × ℚ) (h : acc.2 ≠ 0) :
    (l.foldl lazLdStep acc).2 = acc.2 := by
  induction l generalizing acc with
  | nil => rfl
  | cons sc l ih =>
    have hstep : (lazLdStep acc sc).2 = acc.2 := by
      by_cases hv : sc.valid <;> simp [lazLdStep, hv, h]
    rw [List.foldl_cons, ih _ (by rw [hstep]; exact h), hstep]

lemma lazLd_foldl_zero (l : List LdScript) (nm : String) :
    (l.foldl lazLdStep (nm, 0)).2 = firstNonzero (lazLdCands l) := by
  induction l generalizing nm with
  | nil => rfl
  | cons sc l ih =>
    by_cases hv : sc.valid
    · by_cases ho : sc.offersIsDict
      · by_cases hz : extract_price (some sc.offersPriceStr) = 0
        · have hstep : lazLdStep (nm, 0) sc = (if nm = "" then sc.name else nm, 0) := by
            simp [lazLdStep, hv, ho, set_price_zero, hz]
          rw [List.foldl_cons, hstep, ih]
          simp [lazLdCands, firstNonzero, hv, ho, hz]
        · have hstep : lazLdStep (nm, 0) sc =
              (if nm = "" then sc.name else nm, extract_price (some sc.offersPriceStr)) := by
            simp [lazLdStep, hv, ho, set_price_zero]
          rw [List.foldl_cons, hstep, lazLd_foldl_ne _ _ hz]
          simp [lazLdCands, firstNonzero, hv, ho, hz]
      · have hstep : lazLdStep (nm, 0) sc = (if nm = "" then sc.name else nm, 0) := by
          simp [lazLdStep, hv, ho]
        rw [List.foldl_cons, hstep, ih]
        simp [lazLdCands, hv, ho]
    · have hstep : lazLdStep (nm, 0) sc = (nm, 0) := by
        simp [lazLdStep, hv]
      rw [List.foldl_cons, hstep, ih]
      simp [lazLdCands, hv]

lemma lazLd_foldl_price (l : List LdScript) (nm : String) (p : ℚ) :
    (l.foldl lazLdStep (nm, p)).2 = resolvePrice p (firstNonzero (lazLdCands l)) := by
  by_cases hp : p = 0
  · subst hp; rw [lazLd_foldl_zero]; simp [resolvePrice]
  · rw [lazLd_foldl_ne _ _ hp]; simp [resolvePrice, hp]

lemma amzLd_foldl_ne (l : List AmzLd) (acc : String × ℚ × String) (h : acc.2.1 ≠ 0) :
    (l.foldl amzLdStep acc).2.1 = acc.2.1 := by
  induction l generalizing acc with
  | nil => rfl
  | cons sc l ih =>
    have hstep : (amzLdStep acc sc).2.1 = acc.2.1 := by
      by_cases hv : sc.valid <;> simp [amzLdStep, hv, h]
    rw [List.foldl_cons, ih _ (by rw [hstep]; exact h), hstep]

lemma amzLd_foldl_zero (l : List AmzLd) (nm sl : String) :
    (l.foldl amzLdStep (nm, 0, sl)).2.1 = firstNonzero (amzLdCands l) := by
  induction l generalizing nm sl with
  | nil => rfl
  | cons sc l ih =>
    by_cases hv : sc.valid
    · by_cases ho : sc.offersIsDict
      · by_cases hz : extract_price (some sc.offersPriceStr) = 0
        · have hstep : amzLdStep (nm, 0, sl) sc =
              (if nm = "" then sc.name else nm, 0,
               if sl = "" ∧ sc.sellerIsDict then sc.sellerName else sl) := by
            simp [amzLdStep, hv, ho, set_price_zero, hz]
          rw [List.foldl_cons, hstep, ih]
          simp [amzLdCands, firstNonzero, hv, ho, hz]
        · have hstep : amzLdStep (nm, 0, sl) sc =
              (if nm = "" then sc.name else nm, extract_price (some sc.offersPriceStr),
               if sl = "" ∧ sc.sellerIsDict then sc.sellerName else sl) := by
            simp [amzLdStep, hv, ho, set_price_zero]
          rw [List.foldl_cons, hstep, amzLd_foldl_ne _ _ hz]
          simp [amzLdCands, firstNonzero, hv, ho, hz]
      · have hstep : amzLdStep (nm, 0, sl) sc =
            (if nm = "" then sc.name else nm, 0, sl) := by
          simp [amzLdStep, hv, ho]
        rw [List.foldl_cons, hstep, ih]
        simp [amzLdCands, hv, ho]
    · have hstep : amzLdStep (nm, 0, sl) sc = (nm, 0, sl) := by
        simp [amzLdStep, hv]
      rw [List.foldl_cons, hstep, ih]
      simp [amzLdCands, hv]

/-- Lazada price resolution is the first-nonzero chain UI, DOM, JSON-LD,
`pdpTrackingData`. -/
lemma scrape_lazada_price_eq (url : String) (pg : LazadaPage) :
    (scrape_lazada url pg).price
      = firstNonzero [lazUiVal pg, lazDomVal pg, lazLdVal pg, lazTrackVal pg] := by
  rw [← resolve_chain4]
  simp only [scrape_lazada]
  rw [stage_track, lazLd_foldl_price, stage_elim, set_price_getD]
  simp only [lazUiVal, lazDomVal, lazLdVal, lazTrackVal]

/-- Amazon price resolution is the first-nonzero chain JSON-LD, DOM
selectors, offscreen fallback. -/
lemma scrape_amazon_price_eq (url : String) (pg : AmazonPage) :
    (scrape_amazon url pg).price
      = firstNonzero [amzLdVal pg, amzDomVal pg, amzOffVal pg] := by
  rw [← resolve_chain3]
  simp only [scrape_amazon]
  rw [stage_elim, stage_elim, amzLd_foldl_zero]
  simp only [amzLdVal, amzDomVal, amzOffVal]

lemma parseDecimal_nonneg (l : List Char) (v : ℚ) (h : parseDecimal l = some v) :
    0 ≤ v := by
  unfold parseDecimal at h
  split at h
  · simp only [Option.some.injEq] at h
    subst h
    rw [Rat.mkRat_eq_div]
    positivity
  · exact absurd h (by simp)

lemma parseDecimal_getD_nonneg (l : List Char) : 0 ≤ (parseDecimal l).getD 0 := by
  cases h : parseDecimal l with
  | none => simp
  | some v => simpa using parseDecimal_nonneg l v h

lemma extract_price_nonneg (t : Option String) : 0 ≤ extract_price t := by
  cases t with
  | none => simp [extract_price]
  | some s =>
    simp only [extract_price]
    split
    · exact le_refl 0
    · split
      · exact le_refl 0
      · split
        · next v hv => exact parseDecimal_nonneg _ _ hv
        · split
          · exact parseDecimal_getD_nonneg _
          · exact le_refl 0

lemma stepRefresh_fail (scrape : String → String → Option ℚ) (now : Nat)
    (s : RefreshState) (pid : Nat) (prod : ProductRec)
    (h1 : lookupProduct s.db.products pid = some prod)
    (h2 : scrape prod.url prod.platform = none) :
    stepRefresh scrape now s pid = s := by
  simp [stepRefresh, h1, h2]

lemma processWatcher_not_subscribed (db : DB) (prod : ProductRec) (oldP newP : ℚ)
    (w : WatchRec) (h : w.notify_price_drop = false) :
    processWatcher db prod oldP newP w = (w, []) := by
  unfold processWatcher
  split
  · split
    · rfl
    · simp [h]
  · rfl

/-! ## Claim theorems -/

/-- C1 counterexample: on an Amazon page carrying both a nonzero
DOM-selector price (`$50`, which parses to 50) and a JSON-LD structured-data
price (30), the returned snapshot holds the JSON-LD value 30, not the
DOM value 50 — the Amazon extractor consults structured data first, so the
claimed DOM-over-structured-data precedence fails for Amazon. -/
theorem c1_counterexample :
    (scrape_amazon "u" bothSourcesPage).price = 30 ∧
    extract_price (some "$50") = 50 ∧ (30 : ℚ) ≠ 50 :=
  ⟨by decide, by decide, by norm_num⟩

/-- C1 (amended): price resolution is first-valid-wins over a fixed
precedence order, each later source taking effect only while the price is
still zero; for Lazada the order is UI text, DOM selectors, JSON-LD,
`pdpTrackingData`, while for Amazon the order is JSON-LD first, then the
DOM selectors, then the offscreen fallback. -/
theorem c1_precedence_amended :
    (∀ (url : String) (pg : LazadaPage),
        (scrape_lazada url pg).price
          = firstNonzero [lazUiVal pg, lazDomVal pg, lazLdVal pg, lazTrackVal pg]) ∧
    (∀ (url : String) (pg : AmazonPage),
        (scrape_amazon url pg).price
          = firstNonzero [amzLdVal pg, amzDomVal pg, amzOffVal pg]) :=
  ⟨scrape_lazada_price_eq, scrape_amazon_price_eq⟩

/-- C2 counterexample: `ParsePrice("1,234")` is 1.234, not 1234 — a single
comma with no dot is treated as the decimal separator, exactly as the
heuristic sentence of the claim itself prescribes. -/
theorem c2_counterexample : extract_price (some "1,234") ≠ 1234 := by decide

/-- C2 (amended): the separator heuristic holds with
`ParsePrice("1,234") = 1.234` (single comma, no dot: the comma is the
decimal separator); all other listed values are as claimed. -/
theorem c2_separator_heuristic_amended :
    extract_price (some "1,234.56") = 1234.56 ∧
    extract_price (some "1234,56") = 1234.56 ∧
    extract_price (some "1,234") = 1.234 ∧
    extract_price (some "₱1,234.00") = 1234 ∧
    extract_price (some "1234") = 1234 ∧
    extract_price (some "") = 0 ∧
    extract_price (some "abc") = 0 := by
  refine ⟨?_, ?_, ?_, by decide, by decide, by decide, by decide⟩
  · have h : extract_price (some "1,234.56") = mkRat 123456 100 := by decide
    rw [h, Rat.mkRat_eq_div]; norm_num
  · have h : extract_price (some "1234,56") = mkRat 123456 100 := by decide
    rw [h, Rat.mkRat_eq_div]; norm_num
  · have h : extract_price (some "1,234") = mkRat 1234 1000 := by decide
    rw [h, Rat.mkRat_eq_div]; norm_num

/-- C3: `ParsePrice` is total and non-negative: for every input (including
`None`) it returns a non-negative rational, and unparseable input yields 0. -/
theorem c3_parse_price_total :
    (∀ t : Option String, 0 ≤ extract_price t) ∧ extract_price none = 0 :=
  ⟨extract_price_nonneg, rfl⟩

/-- C4 counterexample: the URL `https://www.amazon.com/lazada` matches the
Amazon host pattern, yet `identify_platform` returns `lazada`, because the
`lazada` substring check runs first — so "every URL containing an Amazon
host pattern returns Amazon" fails as stated. -/
theorem c4_counterexample :
    amazon_url_match (lowerStr "https://www.amazon.com/lazada") = true ∧
    identify_platform (some "https://www.amazon.com/lazada") = some "lazada" ∧
    (some "lazada" : Option String) ≠ some "amazon" :=
  ⟨by decide, by decide, by decide⟩

/-- C4 (amended): identification is case-insensitive with Lazada taking
precedence: any URL containing `lazada` yields Lazada; a URL matching the
Amazon host pattern and not containing `lazada` yields Amazon; anything
else, including `None`, yields `None` (no exception). -/
theorem c4_identify_amended :
    (∀ url : Option String,
        containsSub (lowerStr (url.getD "")).data "lazada".data = true →
        identify_platform url = some "lazada") ∧
    (∀ url : Option String,
        containsSub (lowerStr (url.getD "")).data "lazada".data = false →
        amazon_url_match (lowerStr (url.getD "")) = true →
        identify_platform url = some "amazon") ∧
    (∀ url : Option String,
        containsSub (lowerStr (url.getD "")).data "lazada".data = false →
        amazon_url_match (lowerStr (url.getD "")) = false →
        identify_platform url = none) ∧
    identify_platform none = none := by
  refine ⟨?_, ?_, ?_, by decide⟩
  · intro url h
    simp [identify_platform, h]
  · intro url h1 h2
    simp [identify_platform, h1, h2]
  · intro url h1 h2
    simp [identify_platform, h1, h2]

/-- C4 witness: the amended identification rule at concrete URLs. -/
theorem c4_identify_amended_witness :
    identify_platform (some "https://www.lazada.com.ph/x") = some "lazada" ∧
    identify_platform (some "https://www.amazon.com/dp/B012345678") = some "amazon" ∧
    identify_platform (some "https://example.com") = none :=
  ⟨c4_identify_amended.1 _ (by decide),
   c4_identify_amended.2.1 _ (by decide) (by decide),
   c4_identify_amended.2.2.1 _ (by decide) (by decide)⟩

/-- C5 counterexample: for the URL `https://www.amazon.com/` no ASIN
pattern matches and the Amazon snapshot's product id is the empty string,
not the raw URL — the claimed raw-URL fallback fails for Amazon. -/
theorem c5_counterexample :
    (scrape_amazon "https://www.amazon.com/" emptyAmazonPage).platform_product_id = "" ∧
    ("" : String) ≠ "https://www.amazon.com/" :=
  ⟨by decide, by decide⟩

/-- C5 (amended): when the platform-specific ID pattern does not match,
the Lazada extractor falls back to the raw URL, but the Amazon extractor
falls back to the empty string (`_parse_amazon_asin(url) or ""`), so the
Amazon snapshot's product id can be absent. -/
theorem c5_id_fallback_amended :
    (∀ (url : String) (pg : LazadaPage), lazadaIdSearch url.data = none →
        (scrape_lazada url pg).platform_product_id = url) ∧
    (∀ (url : String) (pg : AmazonPage), parse_amazon_asin url = none →
        (scrape_amazon url pg).platform_product_id = "") := by
  constructor
  · intro url pg h
    simp [scrape_lazada, parse_lazada_product_id, h]
  · intro url pg h
    simp [scrape_amazon, h]

/-- C5 witness: the two fallbacks at concrete URLs. -/
theorem c5_id_fallback_amended_witness :
    (scrape_lazada "foo" emptyLazadaPage).platform_product_id = "foo" ∧
    (scrape_amazon "https://www.amazon.com/" emptyAmazonPage).platform_product_id = "" :=
  ⟨c5_id_fallback_amended.1 "foo" emptyLazadaPage (by decide),
   c5_id_fallback_amended.2 "https://www.amazon.com/" emptyAmazonPage (by decide)⟩

/-- C6: on an Amazon page whose JSON-LD offer names the seller
`Visit the Acme Store`, the snapshot keeps the raw string — the Amazon
extractor does not pass its seller candidates through
`_clean_seller_name`, which would have produced `Acme Store`. -/
theorem c6_seller_not_normalized :
    (scrape_amazon "u" boilerSellerPage).seller = "Visit the Acme Store" ∧
    clean_seller_name (some "Visit the Acme Store") = "Acme Store" ∧
    ("Visit the Acme Store" : String) ≠ "Acme Store" :=
  ⟨by decide, by decide, by decide⟩

/-- C7: batch failure isolation: a failed scrape leaves the refresh state
unchanged and the loop continues; in the concrete 3-product cycle where
product 2's fetch fails, price samples are appended for products 1 and 3
only, and the cycle reports 2 of 3 products refreshed. -/
theorem c7_batch_isolation :
    (∀ (scrape : String → String → Option ℚ) (now : Nat) (s : RefreshState)
        (pid : Nat) (prod : ProductRec),
        lookupProduct s.db.products pid = some prod →
        scrape prod.url prod.platform = none →
        stepRefresh scrape now s pid = s) ∧
    (refresh_prices_and_notify oracle3 0 db3).scraped = 2 ∧
    (refresh_prices_and_notify oracle3 0 db3).total = 3 ∧
    (refresh_prices_and_notify oracle3 0 db3).db.history =
      [{ product_id := 1, price := 150, currency := "PHP" },
       { product_id := 3, price := 150, currency := "PHP" }] ∧
    (refresh_prices_and_notify oracle3 0 db3).emails = [] :=
  ⟨stepRefresh_fail, by decide, by decide, by decide, by decide⟩

/-- C7 witness: the failing step for product 2 is the identity on the
cycle state. -/
theorem c7_batch_isolation_witness : stepRefresh oracle3 0 st3 2 = st3 :=
  c7_batch_isolation.1 oracle3 0 st3 2 (prodFix 2 "u2") (by decide) (by decide)

/-- C8: drop detection: with `oldPrice = 1000`, `newPrice = 900` and one
subscription with `notify_price_drop = true`, exactly one notification is
dispatched and `last_notified_price` becomes 900; with `newPrice = 1000`
no notification is dispatched and the subscription is unchanged; a
subscription with `notify_price_drop = false` is never notified. -/
theorem c8_drop_detection :
    (∀ (db : DB) (prod : ProductRec) (oldP newP : ℚ) (w : WatchRec),
        w.notify_price_drop = false →
        processWatcher db prod oldP newP w = (w, [])) ∧
    ((refresh_prices_and_notify oracle900 0 db8).emails =
       [{ to_email := "a@b", subject := "Price drop: X",
          old_price := 1000, new_price := 900, url := "u" }] ∧
     (refresh_prices_and_notify oracle900 0 db8).db.watchlist =
       [{ user_id := 1, product_id := 1, notify_price_drop := true,
          last_notified_price := some 900 }]) ∧
    ((refresh_prices_and_notify oracle1000 0 db8).emails = [] ∧
     (refresh_prices_and_notify oracle1000 0 db8).db.watchlist = db8.watchlist) ∧
    ((refresh_prices_and_notify oracle900 0 db8f).emails = [] ∧
     (refresh_prices_and_notify oracle900 0 db8f).db.watchlist = db8f.watchlist) :=
  ⟨processWatcher_not_subscribed,
   ⟨by decide, by decide⟩, ⟨by decide, by decide⟩, ⟨by decide, by decide⟩⟩

/-- C8 witness: a non-subscribed watcher row passes through unchanged with
no mail. -/
theorem c8_drop_detection_witness :
    processWatcher db8 prod8 1000 900
        { user_id := 1, product_id := 1, notify_price_drop := false,
          last_notified_price := none }
      = ({ user_id := 1, product_id := 1, notify_price_drop := false,
           last_notified_price := none }, []) :=
  c8_drop_detection.1 db8 prod8 1000 900 _ rfl

/-- C9: for a product whose extraction succeeds, the refresh step records
`newPrice = extracted price if nonzero else previous stored price`, appends
exactly one price sample with that price, and updates the record's
`last_price` and `last_checked_at`. -/
theorem c9_refresh_update (scrape : String → String → Option ℚ) (now : Nat)
    (s : RefreshState) (pid : Nat) (prod : ProductRec) (pr oldv : ℚ)
    (h1 : lookupProduct s.db.products pid = some prod)
    (h2 : scrape prod.url prod.platform = some pr)
    (h3 : prod.last_price = some oldv) :
    (stepRefresh scrape now s pid).db.history
        = s.db.history ++ [{ product_id := prod.id,
                             price := if pr = 0 then oldv else pr,
                             currency := prod.currency }] ∧
    (stepRefresh scrape now s pid).db.products
        = s.db.products.map (fun p =>
            if p.id = prod.id then
              { p with last_price := some (if pr = 0 then oldv else pr),
                       last_checked_at := some now }
            else p) ∧
    (stepRefresh scrape now s pid).scraped = s.scraped + 1 := by
  refine ⟨?_, ?_, ?_⟩ <;> simp [stepRefresh, h1, h2, h3]

/-- C9 witness: the successful refresh step for `db8`'s product. -/
theorem c9_refresh_update_witness :
    (stepRefresh oracle900 5 st8 1).db.history
        = st8.db.history ++ [{ product_id := prod8.id,
                               price := if (900 : ℚ) = 0 then 1000 else 900,
                               currency := prod8.currency }] ∧
    (stepRefresh oracle900 5 st8 1).db.products
        = st8.db.products.map (fun p =>
            if p.id = prod8.id then
              { p with last_price := some (if (900 : ℚ) = 0 then 1000 else 900),
                       last_checked_at := some 5 }
            else p) ∧
    (stepRefresh oracle900 5 st8 1).scraped = st8.scraped + 1 :=
  c9_refresh_update oracle900 5 st8 1 prod8 900 1000 (by decide) rfl rfl

/-- C10: the write-once price invariant of `Product.set_price`: starting
from a zero price, a sequence of `set_price` calls leaves the first truthy
(non-`None`, nonzero) offered value; a nonzero current price is never
overwritten. -/
theorem c10_write_once (cur : ℚ) (xs : List (Option ℚ)) :
    xs.foldl set_price cur = if cur = 0 then firstTruthy xs else cur := by
  induction xs generalizing cur with
  | nil => by_cases h : cur = 0 <;> simp [firstTruthy, h]
  | cons x xs ih =>
    cases x with
    | none =>
      rw [List.foldl_cons]
      show (xs.foldl set_price (set_price cur none)) = _
      rw [show set_price cur none = cur from rfl, ih, firstTruthy]
    | some v =>
      rw [List.foldl_cons, ih]
      by_cases hc : cur = 0
      · subst hc
        rw [set_price_zero]
        by_cases hv : v = 0
        · simp [firstTruthy, hv]
        · simp [firstTruthy, hv]
      · rw [set_price_ne _ _ hc]
        simp [hc]

end PriceTrak
